import Mathlib

/-!
Verification of the cross-platform autostart subsystem of the
electric-scoreboard repository (the `AutostartManager` class in
`src/store-manager.js`, together with its `AutostartError` class).

The JavaScript class is embedded shallowly:

* `MgrState` holds the manager's mutable fields (`lastError` and the
  `errorStats` counters).
* `World` describes the behaviour of the OS / filesystem layer that the
  manager talks to: the Electron login-item API (presence, current
  `openAtLogin` value, whether its getter/setter throw and with which
  message), and the filesystem calls touching the Linux desktop file
  (existence of the file, and an optional injected POSIX error code for
  each kind of call).  A field of `none` means the call succeeds.
* Methods that can `throw` return `Except` values: the public operations
  throw only typed `AutostartError`s, while the internal write path uses
  `JsErr`, which also carries the untyped ReferenceError that
  `_setElectronLoginItems`'s catch block raises by reading the try-scoped
  `settings` binding.  Methods that the source guards with a catch-all
  returning a boolean return the boolean directly.  `async`/`await` and
  the settle/backoff delays have no observable effect in this embedding
  and are dropped.

Error objects are represented by their `code` string only; the message,
`details`, `timestamp` and stack fields of the source's `AutostartError`
are never inspected by the properties under verification.
-/

namespace Autostart

/-- POSIX-style error codes that the source inspects on filesystem errors. -/
inductive FsErr
  | ENOENT
  | EACCES
  | EPERM
  | ENOSPC
  | EBUSY
  | EEXIST
  | EOTHER
deriving DecidableEq, Repr

/-- `AutostartError` from the source, reduced to its `code` field. -/
structure AutostartError where
  code : String
deriving DecidableEq, Repr

/-- `AutostartError.isRecoverable` from the source: the closed list of
recoverable error codes. -/
def isRecoverable (code : String) : Bool :=
  code = "PERMISSION_DENIED" ∨
  code = "LINUX_DIR_CREATE_FAILED" ∨
  code = "LINUX_FILE_WRITE_FAILED" ∨
  code = "VERIFICATION_FAILED" ∨
  code = "TEMPORARY_FAILURE"

/-- `AutostartError.requiresUserAction` from the source. -/
def requiresUserAction (code : String) : Bool :=
  code = "PERMISSION_DENIED" ∨
  code = "UNSUPPORTED_PLATFORM" ∨
  code = "ACCESS_DENIED"

/-- The manager's mutable state: the single `lastError` slot and the
`errorStats` counters. -/
structure MgrState where
  lastError : Option AutostartError
  totalErrors : Nat
  errorsByCode : String → Nat
  recoveryAttempts : Nat
  successfulRecoveries : Nat

/-- Behaviour of the OS / filesystem layer during one manager operation.
`none` in an error field means the corresponding call succeeds. -/
structure World where
  /-- `app.setLoginItemSettings` and `app.getLoginItemSettings` are functions. -/
  hasLoginItemApi : Bool
  /-- current `openAtLogin` value returned by `app.getLoginItemSettings()`. -/
  openAtLogin : Bool
  /-- `app.getLoginItemSettings()` throws with this message. -/
  getLoginErr : Option String
  /-- `app.setLoginItemSettings(...)` throws with this message. -/
  setLoginErr : Option String
  /-- `fs.access(homeDir, W_OK)` succeeds. -/
  homeWritable : Bool
  /-- `fs.access(configDir, W_OK)` succeeds. -/
  configWritable : Bool
  /-- the desktop file `~/.config/autostart/rss-news-ticker.desktop` exists. -/
  desktopFileExists : Bool
  /-- injected failure of `fs.access` on the desktop file (overrides existence). -/
  desktopAccessErr : Option FsErr
  /-- injected failure of `fs.mkdir`. -/
  mkdirErr : Option FsErr
  /-- injected failure of `fs.writeFile`. -/
  writeErr : Option FsErr
  /-- injected failure of `fs.unlink` (overrides the ENOENT from a missing file). -/
  unlinkErr : Option FsErr
  /-- injected failure of `fs.chmod`. -/
  chmodErr : Option FsErr
deriving DecidableEq, Repr

/-- `this.supportedPlatforms` from the constructor. -/
def supportedPlatforms : List String := ["darwin", "win32", "linux"]

/-- `clearError()`. -/
def clearError (st : MgrState) : MgrState :=
  { st with lastError := none }

/-- `_recordErrorStats(error)`. -/
def recordErrorStats (st : MgrState) (e : AutostartError) : MgrState :=
  { st with
    totalErrors := st.totalErrors + 1,
    errorsByCode := fun c => if c = e.code then st.errorsByCode c + 1 else st.errorsByCode c }

/-- `_recordRecoveryStats(successful)`. -/
def recordRecoveryStats (st : MgrState) (successful : Bool) : MgrState :=
  { st with
    recoveryAttempts := st.recoveryAttempts + 1,
    successfulRecoveries := st.successfulRecoveries + (if successful then 1 else 0) }

/-- `getPlatformMethod()`: the pure platform-to-method mapping; throws an
`UNSUPPORTED_PLATFORM` `AutostartError` on any other platform string. -/
def getPlatformMethod (platform : String) : Except AutostartError String :=
  if platform = "darwin" then .ok "loginItems"
  else if platform = "win32" then .ok "registry"
  else if platform = "linux" then .ok "desktop"
  else .error ⟨"UNSUPPORTED_PLATFORM"⟩

/-- The lines of the template literal in `_generateLinuxDesktopFileContent`
(the template ends with a newline, hence the final empty line). -/
def generateLinuxDesktopFileLines (appName appPath : String) : List String :=
  ["[Desktop Entry]",
   "Type=Application",
   "Name=" ++ appName,
   "Comment=RSS feed electric scoreboard display",
   "Exec=\"" ++ appPath ++ "\" --autostart",
   "Icon=rss-news-ticker",
   "Hidden=false",
   "NoDisplay=false",
   "X-GNOME-Autostart-enabled=true",
   "StartupNotify=false",
   "Categories=Network;News;",
   ""]

/-- `_generateLinuxDesktopFileContent()`: the template literal, i.e. the
lines above joined by newlines. -/
def generateLinuxDesktopFileContent (appName appPath : String) : String :=
  String.intercalate "\n" (generateLinuxDesktopFileLines appName appPath)

/-- `pat` is a leading segment of `l` (character-level helper for the
source's `String.prototype.includes` checks). -/
def startsWithChars : List Char → List Char → Bool
  | [], _ => true
  | _ :: _, [] => false
  | a :: as, b :: bs => a = b && startsWithChars as bs

/-- `pat` occurs somewhere inside `l`. -/
def hasSegment (pat : List Char) : List Char → Bool
  | [] => startsWithChars pat []
  | c :: rest => startsWithChars pat (c :: rest) || hasSegment pat rest

/-- `msg.includes(pat)` from the source's message-based error
reclassification. -/
def strContains (msg pat : String) : Bool :=
  hasSegment pat.toList msg.toList

/-! ### Mechanism adapters -/

/-- Outcome of `fs.access(desktopFilePath)`: an injected error if one is
set, otherwise success iff the file exists (a missing file raises ENOENT). -/
def World.accessDesktopFile (w : World) : Option FsErr :=
  match w.desktopAccessErr with
  | some e => some e
  | none => if w.desktopFileExists then none else some .ENOENT

/-- Outcome of `fs.unlink(desktopFilePath)`: an injected error if one is
set, otherwise success iff the file exists (a missing file raises ENOENT). -/
def World.unlinkDesktopFile (w : World) : Option FsErr :=
  match w.unlinkErr with
  | some e => some e
  | none => if w.desktopFileExists then none else some .ENOENT

/-- `_checkElectronLoginItems()`: reads `openAtLogin`; a thrown error is
caught, recorded as `LOGIN_ITEM_CHECK_FAILED`, and `false` is returned. -/
def checkElectronLoginItems (w : World) (st : MgrState) : Bool × MgrState :=
  match w.getLoginErr with
  | none => (w.openAtLogin, st)
  | some _ => (false, { st with lastError := some ⟨"LOGIN_ITEM_CHECK_FAILED"⟩ })

/-- An exception crossing an internal boundary: either a typed
`AutostartError`, or the untyped ReferenceError that
`_setElectronLoginItems`'s catch block raises when it reads the
try-scoped `settings` binding while building the error details. -/
inductive JsErr
  | autostart (e : AutostartError)
  | reference
deriving DecidableEq, Repr

/-- The message-based reclassification in the catch block of
`_setElectronLoginItems`: the if/else chain on `error.message` that
computes `errorCode`.  The catch computes this code, but the
`AutostartError` built from it never comes into existence (see
`setElectronLoginItems`), so the result is dead in the program. -/
def classifySetLoginError (platform msg : String) : String :=
  if strContains msg "permission" || strContains msg "Permission" then
    "PERMISSION_DENIED"
  else if strContains msg "access" || strContains msg "Access" then
    "ACCESS_DENIED"
  else if platform = "win32" && strContains msg "registry" then
    "REGISTRY_ACCESS_FAILED"
  else if platform = "darwin" && strContains msg "login" then
    "MACOS_LOGIN_ITEM_FAILED"
  else
    "LOGIN_ITEM_SET_FAILED"

/-- `_setElectronLoginItems(enabled)`: writes `openAtLogin` (and
`openAsHidden`; on win32 also `path`/`args`, which have no observable
read-back in this model).  When `app.setLoginItemSettings` throws, the
catch block computes `classifySetLoginError platform msg` for the
`AutostartError` it is about to build, but `settings` is a `const`
declared inside the `try` block and the catch's details object reads it,
so evaluating the details raises a ReferenceError before the
`AutostartError` is constructed: `lastError` is not written and the
untyped ReferenceError escapes instead of the classified error. -/
def setElectronLoginItems (w : World) (platform : String) (st : MgrState)
    (enabled : Bool) : Except JsErr Unit × MgrState × World :=
  match w.setLoginErr with
  | none => (.ok (), st, { w with openAtLogin := enabled })
  | some _ => (.error JsErr.reference, st, w)

/-- `_checkLinuxDesktopFile()`: `fs.access` on the desktop file; ENOENT
means `false` without error, any other failure records
`LINUX_DESKTOP_CHECK_FAILED` and returns `false`. -/
def checkLinuxDesktopFile (w : World) (st : MgrState) : Bool × MgrState :=
  match w.accessDesktopFile with
  | none => (true, st)
  | some .ENOENT => (false, st)
  | some _ => (false, { st with lastError := some ⟨"LINUX_DESKTOP_CHECK_FAILED"⟩ })

/-- Reclassification of a directory-creation failure in
`_createLinuxDesktopFile`. -/
def classifyDirCreateError (e : FsErr) : String :=
  if e = .EACCES ∨ e = .EPERM then "PERMISSION_DENIED"
  else if e = .ENOSPC then "DISK_FULL"
  else "LINUX_DIR_CREATE_FAILED"

/-- Reclassification of a file-write failure in `_createLinuxDesktopFile`. -/
def classifyFileWriteError (e : FsErr) : String :=
  if e = .EACCES ∨ e = .EPERM then "PERMISSION_DENIED"
  else if e = .ENOSPC then "DISK_FULL"
  else "LINUX_FILE_WRITE_FAILED"

/-- Reclassification of a delete failure in `_removeLinuxDesktopFile`
(reached only for codes other than ENOENT). -/
def classifyFileRemoveError (e : FsErr) : String :=
  if e = .EACCES ∨ e = .EPERM then "PERMISSION_DENIED"
  else if e = .EBUSY then "FILE_IN_USE"
  else "LINUX_FILE_REMOVE_FAILED"

/-- `_createLinuxDesktopFile()`: `mkdir` (EEXIST tolerated; other failures
reclassified and thrown), then `writeFile` (failures reclassified and
thrown), then `chmod 0755` (failure recorded as the warning
`LINUX_PERMISSION_SET_FAILED` without throwing).  The source's outer
catch wrapping a non-`AutostartError` as `LINUX_UNEXPECTED_ERROR` is
unreachable here because every inner failure already throws an
`AutostartError`. -/
def createLinuxDesktopFile (w : World) (st : MgrState) :
    Except AutostartError Unit × MgrState × World :=
  let mkdirFailure : Option FsErr :=
    match w.mkdirErr with
    | some e => if e = .EEXIST then none else some e
    | none => none
  match mkdirFailure with
  | some e =>
    let a : AutostartError := ⟨classifyDirCreateError e⟩
    (.error a, { st with lastError := some a }, w)
  | none =>
    match w.writeErr with
    | some e =>
      let a : AutostartError := ⟨classifyFileWriteError e⟩
      (.error a, { st with lastError := some a }, w)
    | none =>
      let w2 := { w with desktopFileExists := true }
      match w2.chmodErr with
      | some _ =>
        (.ok (), { st with lastError := some ⟨"LINUX_PERMISSION_SET_FAILED"⟩ }, w2)
      | none => (.ok (), st, w2)

/-- `_removeLinuxDesktopFile()`: `unlink`; an ENOENT failure is treated as
success, any other failure is reclassified, recorded and thrown. -/
def removeLinuxDesktopFile (w : World) (st : MgrState) :
    Except AutostartError Unit × MgrState × World :=
  match w.unlinkDesktopFile with
  | none => (.ok (), st, { w with desktopFileExists := false })
  | some .ENOENT => (.ok (), st, w)
  | some e =>
    let a : AutostartError := ⟨classifyFileRemoveError e⟩
    (.error a, { st with lastError := some a }, w)

/-! ### Capability probe and status check -/

/-- `isPlatformSupported()`: clears the error slot, rejects platforms
outside `supportedPlatforms` with `UNSUPPORTED_PLATFORM`, then probes the
login-item API (darwin/win32) or home/config directory writability
(linux).  The inner re-check of the home directory after a config-dir
failure re-runs the same `fs.access(homeDir, W_OK)` call, which is
deterministic in this model. -/
def isPlatformSupported (w : World) (platform : String) (st : MgrState) :
    Bool × MgrState :=
  let st := clearError st
  if platform ∉ supportedPlatforms then
    (false, { st with lastError := some ⟨"UNSUPPORTED_PLATFORM"⟩ })
  else if platform = "darwin" ∨ platform = "win32" then
    if w.hasLoginItemApi then (true, st)
    else (false, { st with lastError := some ⟨"ELECTRON_API_UNAVAILABLE"⟩ })
  else if platform = "linux" then
    if w.homeWritable then
      if w.configWritable then (true, st)
      else if w.homeWritable then (true, st)
      else (false, { st with lastError := some ⟨"PERMISSION_DENIED"⟩ })
    else (false, { st with lastError := some ⟨"PERMISSION_DENIED"⟩ })
  else
    (false, st)

/-- The try-block of `isEnabled()`: probe, then delegate to the platform
check.  Every branch returns a boolean; the default arm (unreachable once
the probe has passed) records `UNSUPPORTED_PLATFORM` and returns `false`. -/
def isEnabledTry (w : World) (platform : String) (st : MgrState) :
    Except AutostartError Bool × MgrState :=
  let st := clearError st
  match isPlatformSupported w platform st with
  | (false, st) => (.ok false, st)
  | (true, st) =>
    if platform = "darwin" ∨ platform = "win32" then
      let (b, st) := checkElectronLoginItems w st
      (.ok b, st)
    else if platform = "linux" then
      let (b, st) := checkLinuxDesktopFile w st
      (.ok b, st)
    else
      (.ok false, { st with lastError := some ⟨"UNSUPPORTED_PLATFORM"⟩ })

/-- `isEnabled()`: the try-block plus the catch-all that records
`STATUS_CHECK_FAILED` and returns `false` (dead in this model, since the
try-block never throws). -/
def isEnabled (w : World) (platform : String) (st : MgrState) :
    Except AutostartError Bool × MgrState :=
  match isEnabledTry w platform st with
  | (.ok b, st) => (.ok b, st)
  | (.error _, st) =>
    (.ok false, { st with lastError := some ⟨"STATUS_CHECK_FAILED"⟩ })

/-- `_verifyAutostartSetting(expectedState)`: after the settle delay,
re-reads via `isEnabled()` and compares; a thrown error would be caught
and yield `false`. -/
def verifyAutostartSetting (w : World) (platform : String) (st : MgrState)
    (expected : Bool) : Bool × MgrState :=
  match isEnabled w platform st with
  | (.ok actual, st) => (actual == expected, st)
  | (.error _, st) => (false, st)

/-! ### Recovery engine -/

/-- Result object of `attemptRecovery`, reduced to the fields the manager
reads (`success`) plus the dispatch `action` tag. -/
structure RecoveryResult where
  success : Bool
  action : String
deriving DecidableEq, Repr

/-- The `successful` step list accumulated by `_attemptLinuxRecovery`:
home-directory writability check, creation of `.config` and
`.config/autostart`, the `chmod 755` fix (only attempted after the
autostart directory was created), and the throwaway write+delete test
(likewise).  Injected errors of the world apply per call kind. -/
def attemptLinuxRecoverySteps (w : World) : List String :=
  (if w.homeWritable then ["home_directory_writable"] else []) ++
  (if w.mkdirErr = none then ["config_directory_created"] else []) ++
  (if w.mkdirErr = none then ["autostart_directory_created"] else []) ++
  (if w.mkdirErr = none ∧ w.chmodErr = none then ["permissions_fixed"] else []) ++
  (if w.mkdirErr = none ∧ w.writeErr = none ∧ w.unlinkErr = none then
    ["write_test_passed"] else [])

/-- `_retryVerification()`: retries `isEnabled()` with backoff up to three
times, succeeding as soon as a boolean is read.  In this embedding
`isEnabled` always yields a boolean, so the loop exits on its first
iteration; the three-failure arm mirrors the loop running dry. -/
def retryVerification (w : World) (platform : String) (st : MgrState) :
    Bool × MgrState :=
  match isEnabled w platform st with
  | (.ok _, st) => (true, st)
  | (.error _, st) => (false, st)

/-- `_retryWithBackoff(originalError)`: re-runs the original operation
inferred from `error.details.operation`.  No error constructed in the
source module ever sets `details.operation`, so the dispatch always falls
through to the status-check branch, which calls `isEnabled()`; that call
never throws, so the first retry succeeds. -/
def retryWithBackoff (w : World) (platform : String) (st : MgrState) :
    Bool × MgrState :=
  match isEnabled w platform st with
  | (.ok _, st) => (true, st)
  | (.error _, st) => (false, st)

/-- `attemptRecovery(error)`: dispatch on `error.code`.  The guidance
generators (`_generatePermissionGuidance`, `executeFallback`,
`_generateGeneralGuidance`) build pure report objects and leave the
manager state untouched; only the retry branches call back into
`isEnabled`.  The function never throws. -/
def attemptRecovery (w : World) (platform : String) (st : MgrState)
    (e : AutostartError) : RecoveryResult × MgrState :=
  if e.code = "PERMISSION_DENIED" then
    ({ success := false, action := "permission_guidance" }, st)
  else if e.code = "UNSUPPORTED_PLATFORM" then
    ({ success := false, action := "fallback_instructions" }, st)
  else if e.code = "LINUX_DIR_CREATE_FAILED" ∨ e.code = "LINUX_FILE_WRITE_FAILED" then
    ({ success := attemptLinuxRecoverySteps w ≠ [], action := "linux_recovery" }, st)
  else if e.code = "VERIFICATION_FAILED" then
    let (ok, st) := retryVerification w platform st
    ({ success := ok, action := "verification_retry" }, st)
  else if e.code = "TEMPORARY_FAILURE" then
    let (ok, st) := retryWithBackoff w platform st
    ({ success := ok, action := "retry_operation" }, st)
  else
    ({ success := false, action := "general_guidance" }, st)

/-! ### State-changing operations -/

/-- The catch block shared by `enable()` and `disable()` for a thrown
`AutostartError`: store it, record the error statistics, run one round of
`attemptRecovery`, record the recovery statistics, and rethrow the
original error. -/
def operationCatch (w : World) (platform : String) (st : MgrState)
    (e : AutostartError) : Except AutostartError Unit × MgrState × World :=
  let st := { st with lastError := some e }
  let st := recordErrorStats st e
  let (rr, st) := attemptRecovery w platform st e
  let st := recordRecoveryStats st rr.success
  (.error e, st, w)

/-- The platform switch inside `enable()`'s try-block that performs the
adapter write; the default arm (unreachable after a passing probe) throws
`UNSUPPORTED_PLATFORM`.  The linux adapter can only throw typed
`AutostartError`s, lifted here into the exception channel; the
login-item adapter can also let the untyped ReferenceError escape. -/
def enableWrite (w : World) (platform : String) (st : MgrState) :
    Except JsErr Unit × MgrState × World :=
  if platform = "darwin" ∨ platform = "win32" then
    setElectronLoginItems w platform st true
  else if platform = "linux" then
    match createLinuxDesktopFile w st with
    | (.ok u, st, w) => (.ok u, st, w)
    | (.error a, st, w) => (.error (JsErr.autostart a), st, w)
  else
    let e : AutostartError := ⟨"UNSUPPORTED_PLATFORM"⟩
    (.error (JsErr.autostart e), { st with lastError := some e }, w)

/-- The platform switch inside `disable()`'s try-block. -/
def disableWrite (w : World) (platform : String) (st : MgrState) :
    Except JsErr Unit × MgrState × World :=
  if platform = "darwin" ∨ platform = "win32" then
    setElectronLoginItems w platform st false
  else if platform = "linux" then
    match removeLinuxDesktopFile w st with
    | (.ok u, st, w) => (.ok u, st, w)
    | (.error a, st, w) => (.error (JsErr.autostart a), st, w)
  else
    let e : AutostartError := ⟨"UNSUPPORTED_PLATFORM"⟩
    (.error (JsErr.autostart e), { st with lastError := some e }, w)

/-- The try-block of `enable()`: clear the error slot, probe (throwing the
recorded error when unsupported), write, then verify against `true`; a
verification mismatch records `VERIFICATION_FAILED` without throwing. -/
def enableTry (w : World) (platform : String) (st : MgrState) :
    Except JsErr Unit × MgrState × World :=
  let st := clearError st
  match isPlatformSupported w platform st with
  | (false, st) =>
    let e := st.lastError.getD ⟨"UNSUPPORTED_PLATFORM"⟩
    (.error (JsErr.autostart e), st, w)
  | (true, st) =>
    match enableWrite w platform st with
    | (.error e, st, w) => (.error e, st, w)
    | (.ok _, st, w) =>
      match verifyAutostartSetting w platform st true with
      | (true, st) => (.ok (), st, w)
      | (false, st) =>
        (.ok (), { st with lastError := some ⟨"VERIFICATION_FAILED"⟩ }, w)

/-- `enable()`: the try-block plus its catch.  A typed `AutostartError`
is stored, counted and run through one round of recovery before the
rethrow; any other exception — reachable through the login-item setter's
ReferenceError — is wrapped as `UNEXPECTED_ERROR`, stored, and rethrown
with no statistics recording and no recovery dispatch. -/
def enable (w : World) (platform : String) (st : MgrState) :
    Except AutostartError Unit × MgrState × World :=
  match enableTry w platform st with
  | (.ok u, st, w) => (.ok u, st, w)
  | (.error (JsErr.autostart e), st, w) => operationCatch w platform st e
  | (.error JsErr.reference, st, w) =>
    let wrapped : AutostartError := ⟨"UNEXPECTED_ERROR"⟩
    (.error wrapped, { st with lastError := some wrapped }, w)

/-- The try-block of `disable()`, symmetric to `enableTry` with the
remove adapter call and verification against `false`. -/
def disableTry (w : World) (platform : String) (st : MgrState) :
    Except JsErr Unit × MgrState × World :=
  let st := clearError st
  match isPlatformSupported w platform st with
  | (false, st) =>
    let e := st.lastError.getD ⟨"UNSUPPORTED_PLATFORM"⟩
    (.error (JsErr.autostart e), st, w)
  | (true, st) =>
    match disableWrite w platform st with
    | (.error e, st, w) => (.error e, st, w)
    | (.ok _, st, w) =>
      match verifyAutostartSetting w platform st false with
      | (true, st) => (.ok (), st, w)
      | (false, st) =>
        (.ok (), { st with lastError := some ⟨"VERIFICATION_FAILED"⟩ }, w)

/-- `disable()`: try-block plus catch, with the same typed/untyped split
as `enable()`. -/
def disable (w : World) (platform : String) (st : MgrState) :
    Except AutostartError Unit × MgrState × World :=
  match disableTry w platform st with
  | (.ok u, st, w) => (.ok u, st, w)
  | (.error (JsErr.autostart e), st, w) => operationCatch w platform st e
  | (.error JsErr.reference, st, w) =>
    let wrapped : AutostartError := ⟨"UNEXPECTED_ERROR"⟩
    (.error wrapped, { st with lastError := some wrapped }, w)

/-- `toggle()`: clear the error slot, read the current state, then call
`disable()` or `enable()`; an `AutostartError` thrown by either is stored
in `lastError` and rethrown (the `TOGGLE_FAILED` wrap applies only to
non-`AutostartError` exceptions, unreachable here). -/
def toggle (w : World) (platform : String) (st : MgrState) :
    Except AutostartError Bool × MgrState × World :=
  let st := clearError st
  match isEnabled w platform st with
  | (.error e, st) => (.error e, { st with lastError := some e }, w)
  | (.ok current, st) =>
    if current then
      match disable w platform st with
      | (.ok _, st, w) => (.ok false, st, w)
      | (.error e, st, w) => (.error e, { st with lastError := some e }, w)
    else
      match enable w platform st with
      | (.ok _, st, w) => (.ok true, st, w)
      | (.error e, st, w) => (.error e, { st with lastError := some e }, w)

/-- The error code held in the manager's last-error slot, if any. -/
def errCode (st : MgrState) : Option String :=
  st.lastError.map AutostartError.code

/-- A fully healthy OS / filesystem layer: the login-item API is present
and both of its calls succeed, and every filesystem call succeeds. -/
def World.healthy (w : World) : Prop :=
  w.hasLoginItemApi = true ∧ w.getLoginErr = none ∧ w.setLoginErr = none ∧
  w.homeWritable = true ∧ w.configWritable = true ∧
  w.desktopAccessErr = none ∧ w.mkdirErr = none ∧ w.writeErr = none ∧
  w.unlinkErr = none ∧ w.chmodErr = none

instance (w : World) : Decidable w.healthy := by
  unfold World.healthy; infer_instance

/-- The autostart registration state the platform mechanism currently
holds: desktop-file existence on linux, `openAtLogin` otherwise. -/
def registeredState (w : World) (platform : String) : Bool :=
  if platform = "linux" then w.desktopFileExists else w.openAtLogin

/-- The fifteen error kinds of the spec's closed taxonomy (section 4.4). -/
def spec44Kinds : List String :=
  ["PERMISSION_DENIED", "UNSUPPORTED_PLATFORM", "ELECTRON_API_UNAVAILABLE",
   "DISK_FULL", "FILE_IN_USE", "LINUX_DIR_CREATE_FAILED",
   "LINUX_FILE_WRITE_FAILED", "LINUX_FILE_REMOVE_FAILED",
   "LINUX_PERMISSION_SET_FAILED", "VERIFICATION_FAILED",
   "REGISTRY_ACCESS_FAILED", "MACOS_LOGIN_ITEM_FAILED", "ACCESS_DENIED",
   "TEMPORARY_FAILURE", "UNEXPECTED_ERROR"]

/-- The error kinds the source actually constructs: the fifteen spec kinds
plus the operation-level codes of `store-manager.js`. -/
def implKinds : List String :=
  spec44Kinds ++
  ["STATUS_CHECK_FAILED", "PLATFORM_CHECK_FAILED", "TOGGLE_FAILED",
   "LOGIN_ITEM_CHECK_FAILED", "LOGIN_ITEM_SET_FAILED",
   "LINUX_DESKTOP_CHECK_FAILED", "LINUX_UNEXPECTED_ERROR"]

/-- The last-error slot, if filled, holds a code from the implementation's
error-kind list. -/
def lastErrorIn (st : MgrState) : Prop :=
  ∀ e, st.lastError = some e → e.code ∈ implKinds

/-- One manager step only rewrote the last-error slot, either keeping the
incoming value, clearing it, or storing a code from the implementation's
error-kind list. -/
def stepLE (st st2 : MgrState) : Prop :=
  ∃ le, st2 = { st with lastError := le } ∧
    (le = st.lastError ∨ le = none ∨
     ∃ c, le = some (AutostartError.mk c) ∧ c ∈ implKinds)

/-- A healthy world whose login-item setting is off and whose desktop file
is absent. -/
def w0 : World :=
  { hasLoginItemApi := true, openAtLogin := false, getLoginErr := none,
    setLoginErr := none, homeWritable := true, configWritable := true,
    desktopFileExists := false, desktopAccessErr := none, mkdirErr := none,
    writeErr := none, unlinkErr := none, chmodErr := none }

/-- A fresh manager state: no error, all counters zero. -/
def st0 : MgrState :=
  { lastError := none, totalErrors := 0, errorsByCode := fun _ => 0,
    recoveryAttempts := 0, successfulRecoveries := 0 }

/-! ### Lemmas about single steps -/

theorem stepLE_refl (st : MgrState) : stepLE st st :=
  ⟨st.lastError, rfl, Or.inl rfl⟩

theorem stepLE_clear (st : MgrState) : stepLE st { st with lastError := none } :=
  ⟨none, rfl, Or.inr (Or.inl rfl)⟩

theorem stepLE_set (st : MgrState) (c : String) (h : c ∈ implKinds) :
    stepLE st { st with lastError := some ⟨c⟩ } :=
  ⟨some ⟨c⟩, rfl, Or.inr (Or.inr ⟨c, rfl, h⟩)⟩

theorem stepLE_trans {st st2 st3 : MgrState} (h1 : stepLE st st2)
    (h2 : stepLE st2 st3) : stepLE st st3 := by
  obtain ⟨le1, rfl, hle1⟩ := h1
  obtain ⟨le2, rfl, hle2⟩ := h2
  exact ⟨le2, rfl, by
    rcases hle2 with h | h | h
    · rcases hle1 with h1 | h1 | h1
      · exact Or.inl (h.trans h1)
      · exact Or.inr (Or.inl (h.trans h1))
      · exact Or.inr (Or.inr (h ▸ h1))
    · exact Or.inr (Or.inl h)
    · exact Or.inr (Or.inr h)⟩

theorem stepLE_stats {st st2 : MgrState} (h : stepLE st st2) :
    st2.totalErrors = st.totalErrors ∧
    st2.errorsByCode = st.errorsByCode ∧
    st2.recoveryAttempts = st.recoveryAttempts ∧
    st2.successfulRecoveries = st.successfulRecoveries := by
  obtain ⟨le, rfl, _⟩ := h
  exact ⟨rfl, rfl, rfl, rfl⟩

theorem lastErrorIn_of_stepLE {st st2 : MgrState} (h0 : lastErrorIn st)
    (h : stepLE st st2) : lastErrorIn st2 := by
  obtain ⟨le, rfl, hle⟩ := h
  intro e he
  rcases hle with h1 | h1 | ⟨c, h1, hc⟩
  · exact h0 e (by simpa [h1] using he)
  · simp [h1] at he
  · simp only [h1] at he
    cases he
    simpa using hc

theorem clearError_stepLE (st : MgrState) : stepLE st (clearError st) :=
  stepLE_clear st

theorem checkElectronLoginItems_stepLE (w : World) (st : MgrState) :
    stepLE st (checkElectronLoginItems w st).2 := by
  unfold checkElectronLoginItems
  cases w.getLoginErr with
  | none => exact stepLE_refl st
  | some m => exact stepLE_set st _ (by decide)

theorem checkLinuxDesktopFile_stepLE (w : World) (st : MgrState) :
    stepLE st (checkLinuxDesktopFile w st).2 := by
  unfold checkLinuxDesktopFile
  cases w.accessDesktopFile with
  | none => exact stepLE_refl st
  | some e =>
    cases e
    case ENOENT => exact stepLE_refl st
    all_goals exact stepLE_set st _ (by decide)

theorem isPlatformSupported_stepLE (w : World) (p : String) (st : MgrState) :
    stepLE st (isPlatformSupported w p st).2 := by
  unfold isPlatformSupported clearError
  repeat' split
  all_goals
    first
      | exact stepLE_clear st
      | exact stepLE_set st _ (by decide)

theorem isEnabledTry_stepLE (w : World) (p : String) (st : MgrState) :
    stepLE st (isEnabledTry w p st).2 := by
  unfold isEnabledTry
  rcases h : isPlatformSupported w p (clearError st) with ⟨b, st1⟩
  have hs : stepLE st st1 := by
    have := isPlatformSupported_stepLE w p (clearError st)
    rw [h] at this
    exact stepLE_trans (stepLE_clear st) this
  cases b
  · simpa [h] using hs
  · simp only [h]
    split
    · rcases h2 : checkElectronLoginItems w st1 with ⟨b2, st2⟩
      have := checkElectronLoginItems_stepLE w st1
      rw [h2] at this
      simpa [h2] using stepLE_trans hs this
    · split
      · rcases h2 : checkLinuxDesktopFile w st1 with ⟨b2, st2⟩
        have := checkLinuxDesktopFile_stepLE w st1
        rw [h2] at this
        simpa [h2] using stepLE_trans hs this
      · exact stepLE_trans hs (stepLE_set st1 _ (by decide))

theorem isEnabled_stepLE (w : World) (p : String) (st : MgrState) :
    stepLE st (isEnabled w p st).2 := by
  unfold isEnabled
  rcases h : isEnabledTry w p st with ⟨r, st1⟩
  have hs : stepLE st st1 := by
    have := isEnabledTry_stepLE w p st
    rw [h] at this
    exact this
  cases r
  · exact stepLE_trans hs (stepLE_set st1 _ (by decide))
  · simpa using hs

theorem verifyAutostartSetting_stepLE (w : World) (p : String) (st : MgrState)
    (x : Bool) : stepLE st (verifyAutostartSetting w p st x).2 := by
  unfold verifyAutostartSetting
  rcases h : isEnabled w p st with ⟨r, st1⟩
  have hs : stepLE st st1 := by
    have := isEnabled_stepLE w p st
    rw [h] at this
    exact this
  cases r <;> simpa using hs

theorem retryVerification_stepLE (w : World) (p : String) (st : MgrState) :
    stepLE st (retryVerification w p st).2 := by
  unfold retryVerification
  rcases h : isEnabled w p st with ⟨r, st1⟩
  have hs : stepLE st st1 := by
    have := isEnabled_stepLE w p st
    rw [h] at this
    exact this
  cases r <;> simpa using hs

theorem retryWithBackoff_stepLE (w : World) (p : String) (st : MgrState) :
    stepLE st (retryWithBackoff w p st).2 := by
  unfold retryWithBackoff
  rcases h : isEnabled w p st with ⟨r, st1⟩
  have hs : stepLE st st1 := by
    have := isEnabled_stepLE w p st
    rw [h] at this
    exact this
  cases r <;> simpa using hs

theorem attemptRecovery_stepLE (w : World) (p : String) (st : MgrState)
    (e : AutostartError) : stepLE st (attemptRecovery w p st e).2 := by
  unfold attemptRecovery
  split
  · exact stepLE_refl st
  · split
    · exact stepLE_refl st
    · split
      · exact stepLE_refl st
      · split
        · rcases h : retryVerification w p st with ⟨r, st1⟩
          simp only [h]
          have := retryVerification_stepLE w p st
          rw [h] at this
          exact this
        · split
          · rcases h : retryWithBackoff w p st with ⟨r, st1⟩
            simp only [h]
            have := retryWithBackoff_stepLE w p st
            rw [h] at this
            exact this
          · exact stepLE_refl st

theorem classifyDirCreateError_mem (e : FsErr) :
    classifyDirCreateError e ∈ implKinds := by
  unfold classifyDirCreateError
  repeat' split
  all_goals decide

theorem classifyFileWriteError_mem (e : FsErr) :
    classifyFileWriteError e ∈ implKinds := by
  unfold classifyFileWriteError
  repeat' split
  all_goals decide

theorem classifyFileRemoveError_mem (e : FsErr) :
    classifyFileRemoveError e ∈ implKinds := by
  unfold classifyFileRemoveError
  repeat' split
  all_goals decide

theorem setElectronLoginItems_stepLE (w : World) (p : String) (st : MgrState)
    (b : Bool) : stepLE st (setElectronLoginItems w p st b).2.1 := by
  unfold setElectronLoginItems
  cases w.setLoginErr <;> exact stepLE_refl st

theorem setElectronLoginItems_error (w : World) (p : String)
    (st : MgrState) (b : Bool) (j : JsErr)
    (h : (setElectronLoginItems w p st b).1 = .error j) : j = JsErr.reference := by
  unfold setElectronLoginItems at h
  cases hm : w.setLoginErr with
  | none =>
    rw [hm] at h
    simp at h
  | some m =>
    rw [hm] at h
    dsimp only at h
    simp only [Except.error.injEq] at h
    exact h.symm

theorem createLinuxDesktopFile_stepLE (w : World) (st : MgrState) :
    stepLE st (createLinuxDesktopFile w st).2.1 := by
  unfold createLinuxDesktopFile
  repeat' split
  all_goals try (dsimp only; repeat' split)
  all_goals
    first
      | exact stepLE_refl st
      | exact stepLE_set st _ (by decide)
      | exact stepLE_set st _ (classifyDirCreateError_mem _)
      | exact stepLE_set st _ (classifyFileWriteError_mem _)

theorem createLinuxDesktopFile_error_code (w : World) (st : MgrState)
    (e : AutostartError) (h : (createLinuxDesktopFile w st).1 = .error e) :
    e.code ∈ implKinds := by
  unfold createLinuxDesktopFile at h
  repeat' split at h
  all_goals try (dsimp only at h; repeat' split at h)
  all_goals try dsimp only at h
  any_goals simp at h
  all_goals rw [← h]
  all_goals
    first
      | exact classifyDirCreateError_mem _
      | exact classifyFileWriteError_mem _
      | decide

theorem removeLinuxDesktopFile_stepLE (w : World) (st : MgrState) :
    stepLE st (removeLinuxDesktopFile w st).2.1 := by
  unfold removeLinuxDesktopFile
  repeat' split
  all_goals
    first
      | exact stepLE_refl st
      | exact stepLE_set st _ (classifyFileRemoveError_mem _)

theorem removeLinuxDesktopFile_error_code (w : World) (st : MgrState)
    (e : AutostartError) (h : (removeLinuxDesktopFile w st).1 = .error e) :
    e.code ∈ implKinds := by
  unfold removeLinuxDesktopFile at h
  repeat' split at h
  all_goals try (dsimp only at h; repeat' split at h)
  all_goals try dsimp only at h
  any_goals simp at h
  all_goals rw [← h]
  all_goals exact classifyFileRemoveError_mem _

theorem enableWrite_stepLE (w : World) (p : String) (st : MgrState) :
    stepLE st (enableWrite w p st).2.1 := by
  unfold enableWrite
  split
  · exact setElectronLoginItems_stepLE w p st true
  · split
    · rcases h : createLinuxDesktopFile w st with ⟨r, st2, w2⟩
      have := createLinuxDesktopFile_stepLE w st
      rw [h] at this
      cases r <;> exact this
    · exact stepLE_set st _ (by decide)

theorem enableWrite_error_code (w : World) (p : String) (st : MgrState)
    (e : AutostartError)
    (h : (enableWrite w p st).1 = .error (JsErr.autostart e)) :
    e.code ∈ implKinds := by
  unfold enableWrite at h
  split at h
  · have := setElectronLoginItems_error w p st true _ h
    simp at this
  · split at h
    · rcases h2 : createLinuxDesktopFile w st with ⟨r, st2, w2⟩
      rw [h2] at h
      cases r with
      | ok u => simp at h
      | error a =>
        dsimp only at h
        simp only [Except.error.injEq, JsErr.autostart.injEq] at h
        rw [← h]
        exact createLinuxDesktopFile_error_code w st a (by rw [h2])
    · dsimp only at h
      simp only [Except.error.injEq, JsErr.autostart.injEq] at h
      rw [← h]
      decide

theorem disableWrite_stepLE (w : World) (p : String) (st : MgrState) :
    stepLE st (disableWrite w p st).2.1 := by
  unfold disableWrite
  split
  · exact setElectronLoginItems_stepLE w p st false
  · split
    · rcases h : removeLinuxDesktopFile w st with ⟨r, st2, w2⟩
      have := removeLinuxDesktopFile_stepLE w st
      rw [h] at this
      cases r <;> exact this
    · exact stepLE_set st _ (by decide)

theorem disableWrite_error_code (w : World) (p : String) (st : MgrState)
    (e : AutostartError)
    (h : (disableWrite w p st).1 = .error (JsErr.autostart e)) :
    e.code ∈ implKinds := by
  unfold disableWrite at h
  split at h
  · have := setElectronLoginItems_error w p st false _ h
    simp at this
  · split at h
    · rcases h2 : removeLinuxDesktopFile w st with ⟨r, st2, w2⟩
      rw [h2] at h
      cases r with
      | ok u => simp at h
      | error a =>
        dsimp only at h
        simp only [Except.error.injEq, JsErr.autostart.injEq] at h
        rw [← h]
        exact removeLinuxDesktopFile_error_code w st a (by rw [h2])
    · dsimp only at h
      simp only [Except.error.injEq, JsErr.autostart.injEq] at h
      rw [← h]
      decide

theorem lastErrorIn_mk_none (st : MgrState) :
    lastErrorIn { st with lastError := none } := by
  intro e he
  simp at he

theorem lastErrorIn_mk_some (st : MgrState) (c : String) (h : c ∈ implKinds) :
    lastErrorIn { st with lastError := some ⟨c⟩ } := by
  intro e he
  simp only [Option.some.injEq] at he
  rw [← he]
  exact h

theorem isPlatformSupported_lastErrorIn (w : World) (p : String) (st : MgrState) :
    lastErrorIn (isPlatformSupported w p st).2 := by
  unfold isPlatformSupported clearError
  repeat' split
  all_goals
    first
      | exact lastErrorIn_mk_none st
      | exact lastErrorIn_mk_some st _ (by decide)

theorem isEnabledTry_lastErrorIn (w : World) (p : String) (st : MgrState) :
    lastErrorIn (isEnabledTry w p st).2 := by
  unfold isEnabledTry
  rcases h : isPlatformSupported w p (clearError st) with ⟨b, st1⟩
  have h1 : lastErrorIn st1 := by
    have := isPlatformSupported_lastErrorIn w p (clearError st)
    rw [h] at this
    exact this
  cases b
  · simpa [h] using h1
  · simp only [h]
    split
    · rcases h2 : checkElectronLoginItems w st1 with ⟨bb, st2⟩
      have := checkElectronLoginItems_stepLE w st1
      rw [h2] at this
      simpa [h2] using lastErrorIn_of_stepLE h1 this
    · split
      · rcases h2 : checkLinuxDesktopFile w st1 with ⟨bb, st2⟩
        have := checkLinuxDesktopFile_stepLE w st1
        rw [h2] at this
        simpa [h2] using lastErrorIn_of_stepLE h1 this
      · exact lastErrorIn_of_stepLE h1 (stepLE_set st1 _ (by decide))

theorem isEnabled_lastErrorIn (w : World) (p : String) (st : MgrState) :
    lastErrorIn (isEnabled w p st).2 := by
  unfold isEnabled
  rcases h : isEnabledTry w p st with ⟨r, st1⟩
  have h1 : lastErrorIn st1 := by
    have := isEnabledTry_lastErrorIn w p st
    rw [h] at this
    exact this
  cases r
  · exact lastErrorIn_of_stepLE h1 (stepLE_set st1 _ (by decide))
  · simpa using h1

theorem verifyAutostartSetting_lastErrorIn (w : World) (p : String)
    (st : MgrState) (x : Bool) :
    lastErrorIn (verifyAutostartSetting w p st x).2 := by
  unfold verifyAutostartSetting
  rcases h : isEnabled w p st with ⟨r, st1⟩
  have h1 : lastErrorIn st1 := by
    have := isEnabled_lastErrorIn w p st
    rw [h] at this
    exact this
  cases r <;> simpa using h1

theorem attemptRecovery_lastErrorIn (w : World) (p : String) (st : MgrState)
    (e : AutostartError) (h : lastErrorIn st) :
    lastErrorIn (attemptRecovery w p st e).2 :=
  lastErrorIn_of_stepLE h (attemptRecovery_stepLE w p st e)

theorem lastErrorIn_of_eq {st st2 : MgrState}
    (h : st2.lastError = st.lastError) (h0 : lastErrorIn st) :
    lastErrorIn st2 := by
  intro e he
  exact h0 e (h ▸ he)

theorem lastErrorIn_set_err (st : MgrState) (e : AutostartError)
    (h : e.code ∈ implKinds) : lastErrorIn { st with lastError := some e } := by
  intro x hx
  simp only [Option.some.injEq] at hx
  rw [← hx]
  exact h

theorem recordErrorStats_lastError (st : MgrState) (e : AutostartError) :
    (recordErrorStats st e).lastError = st.lastError := rfl

theorem recordErrorStats_recovery (st : MgrState) (e : AutostartError) :
    (recordErrorStats st e).recoveryAttempts = st.recoveryAttempts := rfl

theorem recordRecoveryStats_lastError (st : MgrState) (b : Bool) :
    (recordRecoveryStats st b).lastError = st.lastError := rfl

theorem recordRecoveryStats_recovery (st : MgrState) (b : Bool) :
    (recordRecoveryStats st b).recoveryAttempts = st.recoveryAttempts + 1 := rfl

theorem operationCatch_spec (w : World) (p : String) (st : MgrState)
    (e : AutostartError) (he : e.code ∈ implKinds) :
    (operationCatch w p st e).1 = .error e ∧
    lastErrorIn (operationCatch w p st e).2.1 ∧
    (operationCatch w p st e).2.1.recoveryAttempts = st.recoveryAttempts + 1 ∧
    (operationCatch w p st e).2.2 = w := by
  unfold operationCatch
  rcases h : attemptRecovery w p
      (recordErrorStats { st with lastError := some e } e) e with ⟨rr, st1⟩
  have hin0 : lastErrorIn (recordErrorStats { st with lastError := some e } e) :=
    lastErrorIn_of_eq (recordErrorStats_lastError _ _) (lastErrorIn_set_err st e he)
  have hin : lastErrorIn st1 := by
    have := attemptRecovery_lastErrorIn w p
      (recordErrorStats { st with lastError := some e } e) e hin0
    rw [h] at this
    exact this
  have hstep : stepLE (recordErrorStats { st with lastError := some e } e) st1 := by
    have := attemptRecovery_stepLE w p
      (recordErrorStats { st with lastError := some e } e) e
    rw [h] at this
    exact this
  have hra : st1.recoveryAttempts = st.recoveryAttempts := by
    rw [(stepLE_stats hstep).2.2.1, recordErrorStats_recovery]
  refine ⟨by simp [h], ?_, ?_, by simp [h]⟩
  · simp only [h]
    exact lastErrorIn_of_eq (recordRecoveryStats_lastError st1 rr.success) hin
  · simp only [h]
    rw [recordRecoveryStats_recovery, hra]

theorem isEnabled_ok (w : World) (p : String) (st : MgrState) :
    ∃ b, (isEnabled w p st).1 = Except.ok b := by
  unfold isEnabled
  rcases h : isEnabledTry w p st with ⟨r, st1⟩
  cases r with
  | ok b => exact ⟨b, by simp [h]⟩
  | error e => exact ⟨false, by simp [h]⟩

theorem enableTry_stepLE (w : World) (p : String) (st : MgrState) :
    stepLE st (enableTry w p st).2.1 := by
  unfold enableTry
  rcases h : isPlatformSupported w p (clearError st) with ⟨b, st1⟩
  have hs : stepLE st st1 := by
    have := isPlatformSupported_stepLE w p (clearError st)
    rw [h] at this
    exact stepLE_trans (stepLE_clear st) this
  cases b
  · simpa [h] using hs
  · simp only [h]
    rcases h2 : enableWrite w p st1 with ⟨r, st2, w2⟩
    have hs2 : stepLE st st2 := by
      have := enableWrite_stepLE w p st1
      rw [h2] at this
      exact stepLE_trans hs this
    cases r with
    | error e => simpa [h2] using hs2
    | ok u =>
      simp only [h2]
      rcases h3 : verifyAutostartSetting w2 p st2 true with ⟨vb, st3⟩
      have hs3 : stepLE st st3 := by
        have := verifyAutostartSetting_stepLE w2 p st2 true
        rw [h3] at this
        exact stepLE_trans hs2 this
      cases vb
      · simpa [h3] using stepLE_trans hs3 (stepLE_set st3 _ (by decide))
      · simpa [h3] using hs3

theorem enableTry_lastErrorIn (w : World) (p : String) (st : MgrState) :
    lastErrorIn (enableTry w p st).2.1 := by
  unfold enableTry
  rcases h : isPlatformSupported w p (clearError st) with ⟨b, st1⟩
  have h1 : lastErrorIn st1 := by
    have := isPlatformSupported_lastErrorIn w p (clearError st)
    rw [h] at this
    exact this
  cases b
  · simpa [h] using h1
  · simp only [h]
    rcases h2 : enableWrite w p st1 with ⟨r, st2, w2⟩
    have hin2 : lastErrorIn st2 := by
      have := enableWrite_stepLE w p st1
      rw [h2] at this
      exact lastErrorIn_of_stepLE h1 this
    cases r with
    | error e => simpa [h2] using hin2
    | ok u =>
      simp only [h2]
      rcases h3 : verifyAutostartSetting w2 p st2 true with ⟨vb, st3⟩
      have hin3 : lastErrorIn st3 := by
        have := verifyAutostartSetting_lastErrorIn w2 p st2 true
        rw [h3] at this
        exact this
      cases vb
      · simpa [h3] using lastErrorIn_of_stepLE hin3 (stepLE_set st3 _ (by decide))
      · simpa [h3] using hin3

theorem enableTry_error_code (w : World) (p : String) (st : MgrState)
    (e : AutostartError)
    (h : (enableTry w p st).1 = .error (JsErr.autostart e)) :
    e.code ∈ implKinds := by
  unfold enableTry at h
  dsimp only at h
  rcases hp : isPlatformSupported w p (clearError st) with ⟨b, st1⟩
  rw [hp] at h
  have h1 : lastErrorIn st1 := by
    have := isPlatformSupported_lastErrorIn w p (clearError st)
    rw [hp] at this
    exact this
  cases b
  · dsimp only at h
    simp only [Except.error.injEq, JsErr.autostart.injEq] at h
    rcases hl : st1.lastError with _ | x
    · rw [← h, hl]
      decide
    · rw [← h, hl]
      exact h1 x hl
  · dsimp only at h
    rcases h2 : enableWrite w p st1 with ⟨r, st2, w2⟩
    rw [h2] at h
    cases r with
    | ok u =>
      dsimp only at h
      rcases h3 : verifyAutostartSetting w2 p st2 true with ⟨vb, st3⟩
      rw [h3] at h
      cases vb <;> simp at h
    | error e2 =>
      dsimp only at h
      simp only [Except.error.injEq] at h
      subst h
      exact enableWrite_error_code w p st1 e (by rw [h2])

theorem disableTry_stepLE (w : World) (p : String) (st : MgrState) :
    stepLE st (disableTry w p st).2.1 := by
  unfold disableTry
  rcases h : isPlatformSupported w p (clearError st) with ⟨b, st1⟩
  have hs : stepLE st st1 := by
    have := isPlatformSupported_stepLE w p (clearError st)
    rw [h] at this
    exact stepLE_trans (stepLE_clear st) this
  cases b
  · simpa [h] using hs
  · simp only [h]
    rcases h2 : disableWrite w p st1 with ⟨r, st2, w2⟩
    have hs2 : stepLE st st2 := by
      have := disableWrite_stepLE w p st1
      rw [h2] at this
      exact stepLE_trans hs this
    cases r with
    | error e => simpa [h2] using hs2
    | ok u =>
      simp only [h2]
      rcases h3 : verifyAutostartSetting w2 p st2 false with ⟨vb, st3⟩
      have hs3 : stepLE st st3 := by
        have := verifyAutostartSetting_stepLE w2 p st2 false
        rw [h3] at this
        exact stepLE_trans hs2 this
      cases vb
      · simpa [h3] using stepLE_trans hs3 (stepLE_set st3 _ (by decide))
      · simpa [h3] using hs3

theorem disableTry_lastErrorIn (w : World) (p : String) (st : MgrState) :
    lastErrorIn (disableTry w p st).2.1 := by
  unfold disableTry
  rcases h : isPlatformSupported w p (clearError st) with ⟨b, st1⟩
  have h1 : lastErrorIn st1 := by
    have := isPlatformSupported_lastErrorIn w p (clearError st)
    rw [h] at this
    exact this
  cases b
  · simpa [h] using h1
  · simp only [h]
    rcases h2 : disableWrite w p st1 with ⟨r, st2, w2⟩
    have hin2 : lastErrorIn st2 := by
      have := disableWrite_stepLE w p st1
      rw [h2] at this
      exact lastErrorIn_of_stepLE h1 this
    cases r with
    | error e => simpa [h2] using hin2
    | ok u =>
      simp only [h2]
      rcases h3 : verifyAutostartSetting w2 p st2 false with ⟨vb, st3⟩
      have hin3 : lastErrorIn st3 := by
        have := verifyAutostartSetting_lastErrorIn w2 p st2 false
        rw [h3] at this
        exact this
      cases vb
      · simpa [h3] using lastErrorIn_of_stepLE hin3 (stepLE_set st3 _ (by decide))
      · simpa [h3] using hin3

theorem disableTry_error_code (w : World) (p : String) (st : MgrState)
    (e : AutostartError)
    (h : (disableTry w p st).1 = .error (JsErr.autostart e)) :
    e.code ∈ implKinds := by
  unfold disableTry at h
  dsimp only at h
  rcases hp : isPlatformSupported w p (clearError st) with ⟨b, st1⟩
  rw [hp] at h
  have h1 : lastErrorIn st1 := by
    have := isPlatformSupported_lastErrorIn w p (clearError st)
    rw [hp] at this
    exact this
  cases b
  · dsimp only at h
    simp only [Except.error.injEq, JsErr.autostart.injEq] at h
    rcases hl : st1.lastError with _ | x
    · rw [← h, hl]
      decide
    · rw [← h, hl]
      exact h1 x hl
  · dsimp only at h
    rcases h2 : disableWrite w p st1 with ⟨r, st2, w2⟩
    rw [h2] at h
    cases r with
    | ok u =>
      dsimp only at h
      rcases h3 : verifyAutostartSetting w2 p st2 false with ⟨vb, st3⟩
      rw [h3] at h
      cases vb <;> simp at h
    | error e2 =>
      dsimp only at h
      simp only [Except.error.injEq] at h
      subst h
      exact disableWrite_error_code w p st1 e (by rw [h2])

theorem enable_run (w : World) (p : String) (st : MgrState) :
    lastErrorIn (enable w p st).2.1 ∧
    (∀ u, (enable w p st).1 = .ok u →
      (enable w p st).2.1.recoveryAttempts = st.recoveryAttempts) ∧
    (∀ e, (enable w p st).1 = .error e →
      e.code ∈ implKinds ∧
      ((enable w p st).2.1.recoveryAttempts = st.recoveryAttempts + 1 ∨
        (e = ⟨"UNEXPECTED_ERROR"⟩ ∧
          (enable w p st).2.1.lastError = some ⟨"UNEXPECTED_ERROR"⟩ ∧
          (enable w p st).2.1.recoveryAttempts = st.recoveryAttempts))) := by
  unfold enable
  rcases h : enableTry w p st with ⟨r, st1, w1⟩
  have hin : lastErrorIn st1 := by
    have := enableTry_lastErrorIn w p st
    rw [h] at this
    exact this
  have hstep : stepLE st st1 := by
    have := enableTry_stepLE w p st
    rw [h] at this
    exact this
  cases r with
  | ok u =>
    simp only [h]
    exact ⟨hin, fun _ _ => (stepLE_stats hstep).2.2.1, fun e he => by simp at he⟩
  | error j =>
    cases j with
    | autostart e2 =>
      have hc : e2.code ∈ implKinds := enableTry_error_code w p st e2 (by rw [h])
      obtain ⟨hc1, hc2, hc3, _⟩ := operationCatch_spec w1 p st1 e2 hc
      simp only [h]
      refine ⟨hc2, ?_, ?_⟩
      · intro u hu
        rw [hc1] at hu
        simp at hu
      · intro e he
        rw [hc1] at he
        simp only [Except.error.injEq] at he
        subst he
        exact ⟨hc, Or.inl (by rw [hc3, (stepLE_stats hstep).2.2.1])⟩
    | reference =>
      simp only [h]
      refine ⟨lastErrorIn_set_err st1 ⟨"UNEXPECTED_ERROR"⟩ (by decide), ?_, ?_⟩
      · intro u hu
        simp at hu
      · intro e he
        simp only [Except.error.injEq] at he
        subst he
        exact ⟨by decide, Or.inr ⟨rfl, trivial, (stepLE_stats hstep).2.2.1⟩⟩

theorem disable_run (w : World) (p : String) (st : MgrState) :
    lastErrorIn (disable w p st).2.1 ∧
    (∀ u, (disable w p st).1 = .ok u →
      (disable w p st).2.1.recoveryAttempts = st.recoveryAttempts) ∧
    (∀ e, (disable w p st).1 = .error e →
      e.code ∈ implKinds ∧
      ((disable w p st).2.1.recoveryAttempts = st.recoveryAttempts + 1 ∨
        (e = ⟨"UNEXPECTED_ERROR"⟩ ∧
          (disable w p st).2.1.lastError = some ⟨"UNEXPECTED_ERROR"⟩ ∧
          (disable w p st).2.1.recoveryAttempts = st.recoveryAttempts))) := by
  unfold disable
  rcases h : disableTry w p st with ⟨r, st1, w1⟩
  have hin : lastErrorIn st1 := by
    have := disableTry_lastErrorIn w p st
    rw [h] at this
    exact this
  have hstep : stepLE st st1 := by
    have := disableTry_stepLE w p st
    rw [h] at this
    exact this
  cases r with
  | ok u =>
    simp only [h]
    exact ⟨hin, fun _ _ => (stepLE_stats hstep).2.2.1, fun e he => by simp at he⟩
  | error j =>
    cases j with
    | autostart e2 =>
      have hc : e2.code ∈ implKinds := disableTry_error_code w p st e2 (by rw [h])
      obtain ⟨hc1, hc2, hc3, _⟩ := operationCatch_spec w1 p st1 e2 hc
      simp only [h]
      refine ⟨hc2, ?_, ?_⟩
      · intro u hu
        rw [hc1] at hu
        simp at hu
      · intro e he
        rw [hc1] at he
        simp only [Except.error.injEq] at he
        subst he
        exact ⟨hc, Or.inl (by rw [hc3, (stepLE_stats hstep).2.2.1])⟩
    | reference =>
      simp only [h]
      refine ⟨lastErrorIn_set_err st1 ⟨"UNEXPECTED_ERROR"⟩ (by decide), ?_, ?_⟩
      · intro u hu
        simp at hu
      · intro e he
        simp only [Except.error.injEq] at he
        subst he
        exact ⟨by decide, Or.inr ⟨rfl, trivial, (stepLE_stats hstep).2.2.1⟩⟩

theorem toggle_run (w : World) (p : String) (st : MgrState) :
    lastErrorIn (toggle w p st).2.1 ∧
    (∀ e, (toggle w p st).1 = .error e → e.code ∈ implKinds) := by
  unfold toggle
  rcases h : isEnabled w p (clearError st) with ⟨r, st1⟩
  have hin : lastErrorIn st1 := by
    have := isEnabled_lastErrorIn w p (clearError st)
    rw [h] at this
    exact this
  cases r with
  | error e2 =>
    exfalso
    obtain ⟨b, hb⟩ := isEnabled_ok w p (clearError st)
    rw [h] at hb
    simp at hb
  | ok cur =>
    simp only [h]
    cases cur
    · rw [if_neg (by decide)]
      rcases he : enable w p st1 with ⟨re, st2, w2⟩
      obtain ⟨hein, _, herr⟩ := enable_run w p st1
      rw [he] at hein herr
      cases re with
      | ok u => exact ⟨hein, fun e hx => by simp at hx⟩
      | error e3 =>
        have hc := (herr e3 rfl).1
        refine ⟨lastErrorIn_set_err st2 e3 hc, ?_⟩
        intro e hx
        simp only [Except.error.injEq] at hx
        subst hx
        exact hc
    · rw [if_pos rfl]
      rcases hd : disable w p st1 with ⟨rd, st2, w2⟩
      obtain ⟨hdin, _, hderr⟩ := disable_run w p st1
      rw [hd] at hdin hderr
      cases rd with
      | ok u => exact ⟨hdin, fun e hx => by simp at hx⟩
      | error e3 =>
        have hc := (hderr e3 rfl).1
        refine ⟨lastErrorIn_set_err st2 e3 hc, ?_⟩
        intro e hx
        simp only [Except.error.injEq] at hx
        subst hx
        exact hc

theorem isEnabled_healthy (w : World) (p : String) (st : MgrState)
    (hw : w.healthy) (hp : p = "darwin" ∨ p = "win32" ∨ p = "linux") :
    isEnabled w p st = (.ok (registeredState w p), { st with lastError := none }) := by
  obtain ⟨h1, h2, h3, h4, h5, h6, h7, h8, h9, h10⟩ := hw
  rcases hp with rfl | rfl | rfl
  · simp [isEnabled, isEnabledTry, isPlatformSupported, clearError,
      supportedPlatforms, checkElectronLoginItems, registeredState, h1, h2]
  · simp [isEnabled, isEnabledTry, isPlatformSupported, clearError,
      supportedPlatforms, checkElectronLoginItems, registeredState, h1, h2]
  · cases hf : w.desktopFileExists <;>
      simp [isEnabled, isEnabledTry, isPlatformSupported, clearError,
        supportedPlatforms, checkLinuxDesktopFile, World.accessDesktopFile,
        registeredState, h4, h5, h6, hf]

theorem enable_healthy (w : World) (p : String) (st : MgrState)
    (hw : w.healthy) (hp : p = "darwin" ∨ p = "win32" ∨ p = "linux") :
    ∃ w2, enable w p st = (.ok (), { st with lastError := none }, w2) ∧
      w2.healthy ∧ registeredState w2 p = true := by
  obtain ⟨h1, h2, h3, h4, h5, h6, h7, h8, h9, h10⟩ := hw
  rcases hp with rfl | rfl | rfl
  · refine ⟨{ w with openAtLogin := true }, ?_, ⟨h1, h2, h3, h4, h5, h6, h7, h8, h9, h10⟩, by simp [registeredState]⟩
    simp [enable, enableTry, isPlatformSupported, clearError, supportedPlatforms,
      enableWrite, setElectronLoginItems, verifyAutostartSetting, isEnabled,
      isEnabledTry, checkElectronLoginItems, h1, h2, h3]
  · refine ⟨{ w with openAtLogin := true }, ?_, ⟨h1, h2, h3, h4, h5, h6, h7, h8, h9, h10⟩, by simp [registeredState]⟩
    simp [enable, enableTry, isPlatformSupported, clearError, supportedPlatforms,
      enableWrite, setElectronLoginItems, verifyAutostartSetting, isEnabled,
      isEnabledTry, checkElectronLoginItems, h1, h2, h3]
  · refine ⟨{ w with desktopFileExists := true }, ?_, ⟨h1, h2, h3, h4, h5, h6, h7, h8, h9, h10⟩, by simp [registeredState]⟩
    simp [enable, enableTry, isPlatformSupported, clearError, supportedPlatforms,
      enableWrite, createLinuxDesktopFile, verifyAutostartSetting, isEnabled,
      isEnabledTry, checkLinuxDesktopFile, World.accessDesktopFile,
      h4, h5, h6, h7, h8, h10]

theorem disable_healthy (w : World) (p : String) (st : MgrState)
    (hw : w.healthy) (hp : p = "darwin" ∨ p = "win32" ∨ p = "linux") :
    ∃ w2, disable w p st = (.ok (), { st with lastError := none }, w2) ∧
      w2.healthy ∧ registeredState w2 p = false := by
  obtain ⟨h1, h2, h3, h4, h5, h6, h7, h8, h9, h10⟩ := hw
  rcases hp with rfl | rfl | rfl
  · refine ⟨{ w with openAtLogin := false }, ?_, ⟨h1, h2, h3, h4, h5, h6, h7, h8, h9, h10⟩, by simp [registeredState]⟩
    simp [disable, disableTry, isPlatformSupported, clearError, supportedPlatforms,
      disableWrite, setElectronLoginItems, verifyAutostartSetting, isEnabled,
      isEnabledTry, checkElectronLoginItems, h1, h2, h3]
  · refine ⟨{ w with openAtLogin := false }, ?_, ⟨h1, h2, h3, h4, h5, h6, h7, h8, h9, h10⟩, by simp [registeredState]⟩
    simp [disable, disableTry, isPlatformSupported, clearError, supportedPlatforms,
      disableWrite, setElectronLoginItems, verifyAutostartSetting, isEnabled,
      isEnabledTry, checkElectronLoginItems, h1, h2, h3]
  · cases hf : w.desktopFileExists
    · refine ⟨w, ?_, ⟨h1, h2, h3, h4, h5, h6, h7, h8, h9, h10⟩, by simp [registeredState, hf]⟩
      simp [disable, disableTry, isPlatformSupported, clearError, supportedPlatforms,
        disableWrite, removeLinuxDesktopFile, World.unlinkDesktopFile,
        verifyAutostartSetting, isEnabled, isEnabledTry, checkLinuxDesktopFile,
        World.accessDesktopFile, h4, h5, h6, h9, hf]
    · refine ⟨{ w with desktopFileExists := false }, ?_, ⟨h1, h2, h3, h4, h5, h6, h7, h8, h9, h10⟩, by simp [registeredState]⟩
      simp [disable, disableTry, isPlatformSupported, clearError, supportedPlatforms,
        disableWrite, removeLinuxDesktopFile, World.unlinkDesktopFile,
        verifyAutostartSetting, isEnabled, isEnabledTry, checkLinuxDesktopFile,
        World.accessDesktopFile, h4, h5, h6, h9, hf]

/-! ### Theorems -/

/-- C1: enable() and disable() are idempotent: on a supported platform
with a healthy OS layer, enabling when the registration is already
present completes without throwing, records no error, and a subsequent
isEnabled() reads true; disabling when already absent completes without
throwing, records no error, and a subsequent isEnabled() reads false; in
particular the Linux adapter treats an ENOENT failure of the desktop-file
delete as success. -/
theorem enable_disable_idempotent :
    (∀ w p st, w.healthy → (p = "darwin" ∨ p = "win32" ∨ p = "linux") →
      registeredState w p = true →
      (enable w p st).1 = .ok () ∧ (enable w p st).2.1.lastError = none ∧
      (isEnabled (enable w p st).2.2 p (enable w p st).2.1).1 = .ok true) ∧
    (∀ w p st, w.healthy → (p = "darwin" ∨ p = "win32" ∨ p = "linux") →
      registeredState w p = false →
      (disable w p st).1 = .ok () ∧ (disable w p st).2.1.lastError = none ∧
      (isEnabled (disable w p st).2.2 p (disable w p st).2.1).1 = .ok false) ∧
    (∀ w st, w.unlinkErr = none → w.desktopFileExists = false →
      removeLinuxDesktopFile w st = (.ok (), st, w)) ∧
    (∀ w st, w.unlinkErr = some FsErr.ENOENT →
      removeLinuxDesktopFile w st = (.ok (), st, w)) := by
  refine ⟨?_, ?_, ?_, ?_⟩
  · intro w p st hw hp _
    obtain ⟨w2, he, hw2, hr⟩ := enable_healthy w p st hw hp
    rw [he]
    refine ⟨rfl, rfl, ?_⟩
    have hie := isEnabled_healthy w2 p { st with lastError := none } hw2 hp
    rw [hr] at hie
    show (isEnabled w2 p { st with lastError := none }).1 = .ok true
    rw [hie]
  · intro w p st hw hp _
    obtain ⟨w2, hd, hw2, hr⟩ := disable_healthy w p st hw hp
    rw [hd]
    refine ⟨rfl, rfl, ?_⟩
    have hie := isEnabled_healthy w2 p { st with lastError := none } hw2 hp
    rw [hr] at hie
    show (isEnabled w2 p { st with lastError := none }).1 = .ok false
    rw [hie]
  · intro w st h9 hf
    simp [removeLinuxDesktopFile, World.unlinkDesktopFile, h9, hf]
  · intro w st h9
    simp [removeLinuxDesktopFile, World.unlinkDesktopFile, h9]

theorem getPlatformMethod_error_code (p : String) (e : AutostartError)
    (h : getPlatformMethod p = .error e) : e.code ∈ implKinds := by
  unfold getPlatformMethod at h
  repeat' split at h
  any_goals simp at h
  rw [← h]
  decide

/-- C6: on linux an EACCES or EPERM failure of the autostart-directory
creation during enable() throws a typed PERMISSION_DENIED error, an
ENOSPC failure throws DISK_FULL; an EBUSY failure of the desktop-file
delete during disable() throws FILE_IN_USE, and an ENOENT failure of the
delete is swallowed so disable() completes successfully. -/
theorem linux_errno_reclassification :
    (∀ w st me, w.homeWritable = true → w.mkdirErr = some me →
      (me = FsErr.EACCES ∨ me = FsErr.EPERM) →
      (enable w "linux" st).1 = .error ⟨"PERMISSION_DENIED"⟩) ∧
    (∀ w st, w.homeWritable = true → w.mkdirErr = some FsErr.ENOSPC →
      (enable w "linux" st).1 = .error ⟨"DISK_FULL"⟩) ∧
    (∀ w st, w.homeWritable = true → w.unlinkErr = some FsErr.EBUSY →
      (disable w "linux" st).1 = .error ⟨"FILE_IN_USE"⟩) ∧
    (∀ w st, w.homeWritable = true → w.unlinkErr = some FsErr.ENOENT →
      (disable w "linux" st).1 = .ok ()) := by
  refine ⟨?_, ?_, ?_, ?_⟩
  · intro w st me hhome hmk hme
    rcases hme with rfl | rfl <;>
      simp [enable, enableTry, isPlatformSupported, clearError, supportedPlatforms,
        enableWrite, createLinuxDesktopFile, classifyDirCreateError, operationCatch,
        attemptRecovery, recordErrorStats, recordRecoveryStats, hhome, hmk]
  · intro w st hhome hmk
    simp [enable, enableTry, isPlatformSupported, clearError, supportedPlatforms,
      enableWrite, createLinuxDesktopFile, classifyDirCreateError, operationCatch,
      attemptRecovery, recordErrorStats, recordRecoveryStats, hhome, hmk]
  · intro w st hhome hunl
    simp [disable, disableTry, isPlatformSupported, clearError, supportedPlatforms,
      disableWrite, removeLinuxDesktopFile, World.unlinkDesktopFile,
      classifyFileRemoveError, operationCatch, attemptRecovery, recordErrorStats,
      recordRecoveryStats, hhome, hunl]
  · intro w st hhome hunl
    have hprobe : isPlatformSupported w "linux" (clearError st) =
        (true, { st with lastError := none }) := by
      simp [isPlatformSupported, clearError, supportedPlatforms, hhome]
    have hw : disableWrite w "linux" { st with lastError := none } =
        (.ok (), { st with lastError := none }, w) := by
      simp [disableWrite, removeLinuxDesktopFile, World.unlinkDesktopFile, hunl]
    unfold disable disableTry
    dsimp only
    rw [hprobe]
    dsimp only
    rw [hw]
    dsimp only
    rcases hv : verifyAutostartSetting w "linux" { st with lastError := none } false
      with ⟨vb, st3⟩
    cases vb <;> rfl

theorem linux_errno_reclassification_witness :
    (enable { w0 with mkdirErr := some FsErr.EACCES } "linux" st0).1 =
      .error ⟨"PERMISSION_DENIED"⟩ ∧
    (enable { w0 with mkdirErr := some FsErr.ENOSPC } "linux" st0).1 =
      .error ⟨"DISK_FULL"⟩ ∧
    (disable { w0 with unlinkErr := some FsErr.EBUSY } "linux" st0).1 =
      .error ⟨"FILE_IN_USE"⟩ ∧
    (disable { w0 with unlinkErr := some FsErr.ENOENT } "linux" st0).1 = .ok () :=
  ⟨linux_errno_reclassification.1 { w0 with mkdirErr := some FsErr.EACCES } st0
      FsErr.EACCES rfl rfl (Or.inl rfl),
   linux_errno_reclassification.2.1 { w0 with mkdirErr := some FsErr.ENOSPC } st0 rfl rfl,
   linux_errno_reclassification.2.2.1 { w0 with unlinkErr := some FsErr.EBUSY } st0 rfl rfl,
   linux_errno_reclassification.2.2.2 { w0 with unlinkErr := some FsErr.ENOENT } st0 rfl rfl⟩

/-- C7 (counterexample): the status check on darwin with a failing
login-item read records a LOGIN_ITEM_CHECK_FAILED error, a kind outside
the fifteen kinds of the spec's closed taxonomy. -/
theorem errorKind_outside_spec_taxonomy :
    errCode (isEnabled { w0 with getLoginErr := some "boom" } "darwin" st0).2 =
      some "LOGIN_ITEM_CHECK_FAILED" ∧
    "LOGIN_ITEM_CHECK_FAILED" ∉ spec44Kinds :=
  ⟨rfl, by decide⟩

/-- C7 (amended): every AutostartError any public operation records in the
last-error slot or throws has a kind in the implementation's closed list
`implKinds`: the fifteen spec kinds plus the operation-level codes
STATUS_CHECK_FAILED, PLATFORM_CHECK_FAILED, TOGGLE_FAILED,
LOGIN_ITEM_CHECK_FAILED, LOGIN_ITEM_SET_FAILED,
LINUX_DESKTOP_CHECK_FAILED and LINUX_UNEXPECTED_ERROR. -/
theorem errorKinds_closed (w : World) (p : String) (st : MgrState) :
    lastErrorIn (isPlatformSupported w p st).2 ∧
    lastErrorIn (isEnabled w p st).2 ∧
    lastErrorIn (enable w p st).2.1 ∧
    (∀ e, (enable w p st).1 = .error e → e.code ∈ implKinds) ∧
    lastErrorIn (disable w p st).2.1 ∧
    (∀ e, (disable w p st).1 = .error e → e.code ∈ implKinds) ∧
    lastErrorIn (toggle w p st).2.1 ∧
    (∀ e, (toggle w p st).1 = .error e → e.code ∈ implKinds) ∧
    (∀ e, getPlatformMethod p = .error e → e.code ∈ implKinds) ∧
    spec44Kinds ⊆ implKinds :=
  ⟨isPlatformSupported_lastErrorIn w p st,
   isEnabled_lastErrorIn w p st,
   (enable_run w p st).1,
   fun e he => ((enable_run w p st).2.2 e he).1,
   (disable_run w p st).1,
   fun e he => ((disable_run w p st).2.2 e he).1,
   (toggle_run w p st).1,
   (toggle_run w p st).2,
   getPlatformMethod_error_code p,
   by decide⟩

theorem errorKinds_closed_witness :
    "LOGIN_ITEM_CHECK_FAILED" ∈ implKinds ∧
    "UNSUPPORTED_PLATFORM" ∈ implKinds :=
  ⟨(errorKinds_closed { w0 with getLoginErr := some "boom" } "darwin" st0).2.1
      ⟨"LOGIN_ITEM_CHECK_FAILED"⟩ rfl,
   (errorKinds_closed w0 "freebsd" st0).2.2.2.1 ⟨"UNSUPPORTED_PLATFORM"⟩ rfl⟩

/-- C8 (counterexample): enable() failing with UNSUPPORTED_PLATFORM — a
kind the classifier marks non-recoverable — still performs a recovery
dispatch (the recovery-attempt counter increments from 0 to 1) before the
error is rethrown. -/
theorem recovery_dispatched_for_nonrecoverable :
    isRecoverable "UNSUPPORTED_PLATFORM" = false ∧
    (enable w0 "freebsd" st0).1 = .error ⟨"UNSUPPORTED_PLATFORM"⟩ ∧
    st0.recoveryAttempts = 0 ∧
    (enable w0 "freebsd" st0).2.1.recoveryAttempts = 1 :=
  ⟨by decide, rfl, rfl, rfl⟩

/-- C8 (amended): the Manager invokes the Recovery Engine exactly once on
every enable()/disable() call whose failure reaches the operation's catch
as a typed AutostartError, whatever its kind (recoverable or not), before
rethrowing the original error; the only failures with no dispatch are
login-item setter failures, which escape the adapter as an untyped
ReferenceError (its catch crashes on the try-scoped settings binding) and
are wrapped as UNEXPECTED_ERROR; successful calls perform no dispatch. -/
theorem recovery_dispatch_on_every_failure (w : World) (p : String) (st : MgrState) :
    (∀ u, (enable w p st).1 = .ok u →
      (enable w p st).2.1.recoveryAttempts = st.recoveryAttempts) ∧
    (∀ e, (enable w p st).1 = .error e →
      (enable w p st).2.1.recoveryAttempts = st.recoveryAttempts + 1 ∨
      (e = ⟨"UNEXPECTED_ERROR"⟩ ∧
        (enable w p st).2.1.recoveryAttempts = st.recoveryAttempts)) ∧
    (∀ u, (disable w p st).1 = .ok u →
      (disable w p st).2.1.recoveryAttempts = st.recoveryAttempts) ∧
    (∀ e, (disable w p st).1 = .error e →
      (disable w p st).2.1.recoveryAttempts = st.recoveryAttempts + 1 ∨
      (e = ⟨"UNEXPECTED_ERROR"⟩ ∧
        (disable w p st).2.1.recoveryAttempts = st.recoveryAttempts)) ∧
    (∀ msg, (p = "darwin" ∨ p = "win32") → w.hasLoginItemApi = true →
      w.setLoginErr = some msg →
      (enable w p st).1 = .error ⟨"UNEXPECTED_ERROR"⟩ ∧
      (enable w p st).2.1.recoveryAttempts = st.recoveryAttempts) := by
  refine ⟨(enable_run w p st).2.1,
    fun e he => ((((enable_run w p st).2.2) e he).2).imp id (fun hx => ⟨hx.1, hx.2.2⟩),
    (disable_run w p st).2.1,
    fun e he => ((((disable_run w p st).2.2) e he).2).imp id (fun hx => ⟨hx.1, hx.2.2⟩),
    ?_⟩
  intro msg hp hapi hmsg
  have htry : enableTry w p st =
      (.error JsErr.reference, { st with lastError := none }, w) := by
    rcases hp with rfl | rfl <;>
      simp [enableTry, isPlatformSupported, clearError, supportedPlatforms,
        enableWrite, setElectronLoginItems, hapi, hmsg]
  have he : enable w p st =
      (.error ⟨"UNEXPECTED_ERROR"⟩,
       { st with lastError := some ⟨"UNEXPECTED_ERROR"⟩ }, w) := by
    unfold enable
    rw [htry]
  rw [he]
  exact ⟨rfl, rfl⟩

theorem recovery_dispatch_on_every_failure_witness :
    ((enable w0 "freebsd" st0).2.1.recoveryAttempts = st0.recoveryAttempts + 1 ∨
      ((⟨"UNSUPPORTED_PLATFORM"⟩ : AutostartError) = ⟨"UNEXPECTED_ERROR"⟩ ∧
        (enable w0 "freebsd" st0).2.1.recoveryAttempts = st0.recoveryAttempts)) ∧
    (enable { w0 with setLoginErr := some "boom" } "darwin" st0).1 =
      .error ⟨"UNEXPECTED_ERROR"⟩ ∧
    (enable { w0 with setLoginErr := some "boom" } "darwin" st0).2.1.recoveryAttempts =
      st0.recoveryAttempts :=
  ⟨(recovery_dispatch_on_every_failure w0 "freebsd" st0).2.1
      ⟨"UNSUPPORTED_PLATFORM"⟩ rfl,
   ((recovery_dispatch_on_every_failure { w0 with setLoginErr := some "boom" }
        "darwin" st0).2.2.2.2 "boom" (Or.inl rfl) rfl rfl).1,
   ((recovery_dispatch_on_every_failure { w0 with setLoginErr := some "boom" }
        "darwin" st0).2.2.2.2 "boom" (Or.inl rfl) rfl rfl).2⟩

/-- C9 (code bug): the claimed message-based reclassification of
login-item write failures is what the catch block of
`_setElectronLoginItems` computes, but it never reaches the caller: the
catch reads the try-scoped `settings` binding while building the error
details, raising a ReferenceError, so enable() surfaces the
UNEXPECTED_ERROR wrap instead of any classified kind — shown here at the
failing input (darwin, setter throwing with message `boom`) together with
the codes the dead classification chain would have produced. -/
theorem loginItem_write_failure_unexpected_error :
    (enable { w0 with setLoginErr := some "boom" } "darwin" st0).1 =
      .error ⟨"UNEXPECTED_ERROR"⟩ ∧
    (enable { w0 with setLoginErr := some "boom" } "darwin" st0).2.1.lastError =
      some ⟨"UNEXPECTED_ERROR"⟩ ∧
    (enable { w0 with setLoginErr := some "boom" } "darwin" st0).2.1.recoveryAttempts =
      0 ∧
    (setElectronLoginItems { w0 with setLoginErr := some "boom" } "darwin" st0 true).1 =
      .error JsErr.reference ∧
    classifySetLoginError "darwin" "boom" = "LOGIN_ITEM_SET_FAILED" ∧
    classifySetLoginError "darwin" "Permission denied" = "PERMISSION_DENIED" ∧
    classifySetLoginError "win32" "registry locked" = "REGISTRY_ACCESS_FAILED" ∧
    classifySetLoginError "darwin" "login item rejected" = "MACOS_LOGIN_ITEM_FAILED" :=
  ⟨rfl, rfl, rfl, rfl, by decide, by decide, by decide, by decide⟩

/-- C10 (counterexample): a disable() on darwin whose verification
re-read fails internally (the login-item read throws) but coincidentally
matches the intended `false` completes successfully with passing
verification, yet getLastError() holds the re-read's
LOGIN_ITEM_CHECK_FAILED error instead of null. -/
theorem disable_ok_with_check_error :
    (disable { w0 with getLoginErr := some "x" } "darwin" st0).1 = .ok () ∧
    (disable { w0 with getLoginErr := some "x" } "darwin" st0).2.1.lastError =
      some ⟨"LOGIN_ITEM_CHECK_FAILED"⟩ ∧
    some (AutostartError.mk "LOGIN_ITEM_CHECK_FAILED") ≠
      (none : Option AutostartError) :=
  ⟨rfl, rfl, by decide⟩

/-- C10 (amended): every public operation (isPlatformSupported,
isEnabled, enable, disable, toggle) clears the single last-error slot
before doing anything else — its entire result is independent of the
incoming last-error value — and on a healthy OS layer a successful
enable() or disable() leaves getLastError() null even if an earlier
operation had recorded an error; only when the verification re-read
itself fails internally can a successful disable() leave that re-read
check error in the slot. -/
theorem clears_error_slot_first (w : World) (p : String) (st : MgrState)
    (e1 e2 : Option AutostartError) :
    (isPlatformSupported w p { st with lastError := e1 } =
      isPlatformSupported w p { st with lastError := e2 }) ∧
    (isEnabled w p { st with lastError := e1 } =
      isEnabled w p { st with lastError := e2 }) ∧
    (enable w p { st with lastError := e1 } =
      enable w p { st with lastError := e2 }) ∧
    (disable w p { st with lastError := e1 } =
      disable w p { st with lastError := e2 }) ∧
    (toggle w p { st with lastError := e1 } =
      toggle w p { st with lastError := e2 }) ∧
    (w.healthy → (p = "darwin" ∨ p = "win32" ∨ p = "linux") →
      (enable w p { st with lastError := e1 }).2.1.lastError = none ∧
      (disable w p { st with lastError := e1 }).2.1.lastError = none) := by
  refine ⟨rfl, rfl, rfl, rfl, rfl, ?_⟩
  intro hw hp
  obtain ⟨w2, he, _, _⟩ := enable_healthy w p { st with lastError := e1 } hw hp
  obtain ⟨w3, hd, _, _⟩ := disable_healthy w p { st with lastError := e1 } hw hp
  rw [he, hd]
  exact ⟨rfl, rfl⟩

theorem clears_error_slot_first_witness :
    (enable w0 "darwin" { st0 with lastError := some ⟨"DISK_FULL"⟩ }).2.1.lastError =
      none ∧
    (disable w0 "darwin" { st0 with lastError := some ⟨"DISK_FULL"⟩ }).2.1.lastError =
      none :=
  (clears_error_slot_first w0 "darwin" st0 (some ⟨"DISK_FULL"⟩) none).2.2.2.2.2
    (by decide) (by decide)

/-- C2: isEnabled() never throws and always yields a boolean; on an
unrecognized platform string it returns false and leaves the last-error
slot holding an UNSUPPORTED_PLATFORM error, while enable() on the same
platform throws that recorded typed error; an adapter-level failure
during the check (login-item read error, or a non-ENOENT access failure
on the desktop file) is caught, classified, recorded, and the function
still returns false. -/
theorem isEnabled_never_throws :
    (∀ w p st, ∃ b, (isEnabled w p st).1 = Except.ok b) ∧
    (∀ w p st, p ∉ supportedPlatforms →
      (isEnabled w p st).1 = .ok false ∧
      errCode (isEnabled w p st).2 = some "UNSUPPORTED_PLATFORM") ∧
    (∀ w p st, p ∉ supportedPlatforms →
      (enable w p st).1 = .error ⟨"UNSUPPORTED_PLATFORM"⟩ ∧
      errCode (enable w p st).2.1 = some "UNSUPPORTED_PLATFORM") ∧
    (∀ w st p, (p = "darwin" ∨ p = "win32") → w.hasLoginItemApi = true →
      ∀ msg, w.getLoginErr = some msg →
      (isEnabled w p st).1 = .ok false ∧
      errCode (isEnabled w p st).2 = some "LOGIN_ITEM_CHECK_FAILED") ∧
    (∀ w st e, w.homeWritable = true → w.desktopAccessErr = some e →
      e ≠ FsErr.ENOENT →
      (isEnabled w "linux" st).1 = .ok false ∧
      errCode (isEnabled w "linux" st).2 = some "LINUX_DESKTOP_CHECK_FAILED") := by
  refine ⟨isEnabled_ok, ?_, ?_, ?_, ?_⟩
  · intro w p st hp
    have h : isEnabled w p st =
        (.ok false, { st with lastError := some ⟨"UNSUPPORTED_PLATFORM"⟩ }) := by
      simp [isEnabled, isEnabledTry, isPlatformSupported, clearError, hp]
    rw [h]
    exact ⟨rfl, rfl⟩
  · intro w p st hp
    have htry : enableTry w p st =
        (.error (JsErr.autostart ⟨"UNSUPPORTED_PLATFORM"⟩),
         { st with lastError := some ⟨"UNSUPPORTED_PLATFORM"⟩ }, w) := by
      simp [enableTry, isPlatformSupported, clearError, hp]
    have h2 : enable w p st =
        operationCatch w p { st with lastError := some ⟨"UNSUPPORTED_PLATFORM"⟩ }
          ⟨"UNSUPPORTED_PLATFORM"⟩ := by
      unfold enable
      rw [htry]
    rw [h2]
    constructor
    · simp [operationCatch, recordErrorStats, recordRecoveryStats, attemptRecovery]
    · simp [operationCatch, recordErrorStats, recordRecoveryStats, attemptRecovery,
        errCode]
  · intro w st p hp hapi msg hmsg
    rcases hp with rfl | rfl <;>
      constructor <;>
        simp [isEnabled, isEnabledTry, isPlatformSupported, clearError,
          supportedPlatforms, checkElectronLoginItems, errCode, hapi, hmsg]
  · intro w st e hhome hacc hne
    cases e <;>
      simp_all [isEnabled, isEnabledTry, isPlatformSupported, clearError,
        supportedPlatforms, checkLinuxDesktopFile, World.accessDesktopFile,
        errCode, hhome, hacc]

theorem isEnabled_never_throws_witness :
    ((isEnabled w0 "freebsd" st0).1 = .ok false ∧
      errCode (isEnabled w0 "freebsd" st0).2 = some "UNSUPPORTED_PLATFORM") ∧
    ((enable w0 "freebsd" st0).1 = .error ⟨"UNSUPPORTED_PLATFORM"⟩ ∧
      errCode (enable w0 "freebsd" st0).2.1 = some "UNSUPPORTED_PLATFORM") ∧
    ((isEnabled { w0 with getLoginErr := some "boom" } "darwin" st0).1 = .ok false ∧
      errCode (isEnabled { w0 with getLoginErr := some "boom" } "darwin" st0).2 =
        some "LOGIN_ITEM_CHECK_FAILED") ∧
    ((isEnabled { w0 with desktopAccessErr := some FsErr.EACCES } "linux" st0).1 =
        .ok false ∧
      errCode (isEnabled { w0 with desktopAccessErr := some FsErr.EACCES } "linux" st0).2 =
        some "LINUX_DESKTOP_CHECK_FAILED") :=
  ⟨isEnabled_never_throws.2.1 w0 "freebsd" st0 (by decide),
   isEnabled_never_throws.2.2.1 w0 "freebsd" st0 (by decide),
   isEnabled_never_throws.2.2.2.1 { w0 with getLoginErr := some "boom" } st0 "darwin"
     (Or.inl rfl) rfl "boom" rfl,
   isEnabled_never_throws.2.2.2.2 { w0 with desktopAccessErr := some FsErr.EACCES } st0
     FsErr.EACCES rfl rfl (by decide)⟩

/-- C3: whenever the platform probe passes and the adapter write of
enable() or disable() succeeds, the operation re-reads the state through
isEnabled() (the comparison is `verifyAutostartSetting`), returns
normally without throwing, keeps the written world (the write is not
undone); if the re-read does not match the intended value a
VERIFICATION_FAILED error is recorded in the last-error slot, and if it
matches the slot stays as the re-read left it. -/
theorem verification_after_write :
    (∀ w p st st1 w1,
      (isPlatformSupported w p (clearError st)).1 = true →
      enableWrite w p (isPlatformSupported w p (clearError st)).2 = (.ok (), st1, w1) →
      (enable w p st).1 = .ok () ∧
      (enable w p st).2.2 = w1 ∧
      ((verifyAutostartSetting w1 p st1 true).1 = false →
        (enable w p st).2.1.lastError = some ⟨"VERIFICATION_FAILED"⟩) ∧
      ((verifyAutostartSetting w1 p st1 true).1 = true →
        (enable w p st).2.1 = (verifyAutostartSetting w1 p st1 true).2)) ∧
    (∀ w p st st1 w1,
      (isPlatformSupported w p (clearError st)).1 = true →
      disableWrite w p (isPlatformSupported w p (clearError st)).2 = (.ok (), st1, w1) →
      (disable w p st).1 = .ok () ∧
      (disable w p st).2.2 = w1 ∧
      ((verifyAutostartSetting w1 p st1 false).1 = false →
        (disable w p st).2.1.lastError = some ⟨"VERIFICATION_FAILED"⟩) ∧
      ((verifyAutostartSetting w1 p st1 false).1 = true →
        (disable w p st).2.1 = (verifyAutostartSetting w1 p st1 false).2)) := by
  constructor
  · intro w p st st1 w1 hsup hw
    unfold enable enableTry
    dsimp only
    rcases hp : isPlatformSupported w p (clearError st) with ⟨b, stp⟩
    rw [hp] at hsup hw
    dsimp only at hsup hw
    subst hsup
    dsimp only
    rw [hw]
    dsimp only
    rcases hv : verifyAutostartSetting w1 p st1 true with ⟨vb, st3⟩
    cases vb
    · exact ⟨rfl, rfl, fun _ => rfl, fun hcontra => by simp at hcontra⟩
    · exact ⟨rfl, rfl, fun hcontra => by simp at hcontra, fun _ => rfl⟩
  · intro w p st st1 w1 hsup hw
    unfold disable disableTry
    dsimp only
    rcases hp : isPlatformSupported w p (clearError st) with ⟨b, stp⟩
    rw [hp] at hsup hw
    dsimp only at hsup hw
    subst hsup
    dsimp only
    rw [hw]
    dsimp only
    rcases hv : verifyAutostartSetting w1 p st1 false with ⟨vb, st3⟩
    cases vb
    · exact ⟨rfl, rfl, fun _ => rfl, fun hcontra => by simp at hcontra⟩
    · exact ⟨rfl, rfl, fun hcontra => by simp at hcontra, fun _ => rfl⟩

theorem verification_after_write_witness :
    (enable { w0 with desktopAccessErr := some FsErr.EACCES } "linux" st0).1 = .ok () ∧
    (enable { w0 with desktopAccessErr := some FsErr.EACCES } "linux" st0).2.1.lastError =
      some ⟨"VERIFICATION_FAILED"⟩ := by
  have h := verification_after_write.1 { w0 with desktopAccessErr := some FsErr.EACCES }
    "linux" st0 (clearError st0)
    { w0 with desktopAccessErr := some FsErr.EACCES, desktopFileExists := true }
    (by decide) (by rfl)
  exact ⟨h.1, h.2.2.1 (by decide)⟩

theorem enable_disable_idempotent_witness :
    ((enable { w0 with desktopFileExists := true } "linux" st0).1 = .ok () ∧
      (enable { w0 with desktopFileExists := true } "linux" st0).2.1.lastError = none ∧
      (isEnabled (enable { w0 with desktopFileExists := true } "linux" st0).2.2 "linux"
        (enable { w0 with desktopFileExists := true } "linux" st0).2.1).1 = .ok true) ∧
    ((disable w0 "linux" st0).1 = .ok () ∧
      (disable w0 "linux" st0).2.1.lastError = none ∧
      (isEnabled (disable w0 "linux" st0).2.2 "linux"
        (disable w0 "linux" st0).2.1).1 = .ok false) ∧
    removeLinuxDesktopFile w0 st0 = (.ok (), st0, w0) :=
  ⟨enable_disable_idempotent.1 { w0 with desktopFileExists := true } "linux" st0
      (by decide) (by decide) (by decide),
   enable_disable_idempotent.2.1 w0 "linux" st0 (by decide) (by decide) (by decide),
   enable_disable_idempotent.2.2.1 w0 st0 rfl rfl⟩

/-- C4: `getPlatformMethod()` is a pure total mapping on the supported
platforms: it returns `loginItems` on darwin, `registry` on win32 and
`desktop` on linux without throwing, and throws an `UNSUPPORTED_PLATFORM`
error on every other platform string. -/
theorem getPlatformMethod_total (p : String) :
    getPlatformMethod "darwin" = .ok "loginItems" ∧
    getPlatformMethod "win32" = .ok "registry" ∧
    getPlatformMethod "linux" = .ok "desktop" ∧
    (p ≠ "darwin" → p ≠ "win32" → p ≠ "linux" →
      getPlatformMethod p = .error ⟨"UNSUPPORTED_PLATFORM"⟩) := by
  refine ⟨rfl, rfl, rfl, fun h1 h2 h3 => ?_⟩
  simp [getPlatformMethod, h1, h2, h3]

theorem getPlatformMethod_total_witness :
    getPlatformMethod "freebsd" = .error ⟨"UNSUPPORTED_PLATFORM"⟩ :=
  (getPlatformMethod_total "freebsd").2.2.2 (by decide) (by decide) (by decide)

/-- C5: for every app display name and executable path, the generated
Linux desktop-file content is the newline-join of a line list that
contains the literal lines `Exec="<path>" --autostart` and `Name=<name>`
and every required key (`Type=Application`, `Comment`, `Icon`,
`Hidden=false`, `NoDisplay=false`, `X-GNOME-Autostart-enabled=true`,
`StartupNotify=false`); in particular for name `Test App` and path
`/opt/test/app` it contains `Exec="/opt/test/app" --autostart` and
`Name=Test App`. -/
theorem desktopFile_required_lines (appName appPath : String) :
    generateLinuxDesktopFileContent appName appPath =
      String.intercalate "\n" (generateLinuxDesktopFileLines appName appPath) ∧
    ("Exec=\"" ++ appPath ++ "\" --autostart") ∈
      generateLinuxDesktopFileLines appName appPath ∧
    ("Name=" ++ appName) ∈ generateLinuxDesktopFileLines appName appPath ∧
    "Type=Application" ∈ generateLinuxDesktopFileLines appName appPath ∧
    "Comment=RSS feed electric scoreboard display" ∈
      generateLinuxDesktopFileLines appName appPath ∧
    "Icon=rss-news-ticker" ∈ generateLinuxDesktopFileLines appName appPath ∧
    "Hidden=false" ∈ generateLinuxDesktopFileLines appName appPath ∧
    "NoDisplay=false" ∈ generateLinuxDesktopFileLines appName appPath ∧
    "X-GNOME-Autostart-enabled=true" ∈
      generateLinuxDesktopFileLines appName appPath ∧
    "StartupNotify=false" ∈ generateLinuxDesktopFileLines appName appPath ∧
    "Exec=\"/opt/test/app\" --autostart" ∈
      generateLinuxDesktopFileLines "Test App" "/opt/test/app" ∧
    "Name=Test App" ∈ generateLinuxDesktopFileLines "Test App" "/opt/test/app" := by
  refine ⟨rfl, ?_, ?_, ?_, ?_, ?_, ?_, ?_, ?_, ?_, ?_, ?_⟩ <;>
    simp [generateLinuxDesktopFileLines]

end Autostart
